import Mathlib

/-! FalconBackendStorage: the notebook HTTP handlers of `main.go`

A shallow embedding of `src/main.go`.  Every handler of the source is a Lean
function of the same name.  A handler receives the request (the route
variables `mux.Vars(r)` and the outcome of decoding the JSON body), the
environment of the request (the clock and the faults of the store) and the
state of the `notebooks` collection; it returns the HTTP status, the value
written to the response and the collection afterwards, together with the list
of store operations it performed.

The MongoDB collection is not part of the repository.  It is modelled as a
list of documents in natural order, with the operations the handlers call
(`Find`, `FindOne`, `FindOneAndUpdate`, `UpdateOne`, `UpdateMany`, `InsertOne`,
`DeleteOne`, `DeleteMany`) restricted to the filters and update documents that
occur in the source.  Documents keep track of which fields are present, since
the server-side matching (`notes._id`, `$pull`, `ModifiedCount`) depends on it,
while a `Decode` into a Go struct maps an absent field to the zero value.
Clock readings are taken at the precision of the store.
-/

namespace Falcon

/-! ## Go data model (`main.go`, lines 18-43) -/

/-- A `primitive.ObjectID`: twelve bytes, read as a big-endian number.
`0` is `primitive.NilObjectID`. -/
abbrev ObjectID := Nat

/-- A `time.Time` reading; `0` is the zero time (`IsZero`). -/
abbrev Time := Nat

/-- Go struct `Query`. -/
structure Query where
  Question : String
  Response : String
  deriving DecidableEq, Repr

/-- Go struct `Data`. -/
structure Data where
  ID : ObjectID
  Info : String
  Queries : List Query
  deriving DecidableEq, Repr

/-- Go struct `Note`. -/
structure Note where
  ID : ObjectID
  Title : String
  Text : String
  Data : Data
  deriving DecidableEq, Repr

/-- Go struct `Notebook`. -/
structure Notebook where
  ID : ObjectID
  Title : String
  Notes : List Note
  Created : Time
  LastAccess : Time
  Data : Data
  deriving DecidableEq, Repr

/-- The zero value `Data{}`. -/
def Data.zero : Data := ⟨0, "", []⟩

/-! ## Stored documents -/

/-- A stored `data` sub-document.  Its leaves follow the Go zero-value
convention (an absent leaf and a zero leaf are the same).  The key `notes`
is only ever written by `patchUpdateNotebookData`, whose payload struct has a
`Notes` member; no handler reads it back. -/
structure DataDoc where
  _id : ObjectID
  info : String
  queries : List Query
  notes : List Note
  deriving DecidableEq, Repr

/-- An element of the `notes` array of a stored notebook.  `none` is an absent
field.  `lastAccess` is the field written through `notes.$.lastAccess`; the Go
struct `Note` has no member for it. -/
structure NoteDoc where
  _id : Option ObjectID
  title : Option String
  text : Option String
  data : Option DataDoc
  lastAccess : Option Time
  deriving DecidableEq, Repr

/-- A document of the `notebooks` collection.  `none` is an absent field. -/
structure NotebookDoc where
  _id : ObjectID
  title : Option String
  notes : Option (List NoteDoc)
  created : Option Time
  lastAccess : Option Time
  data : Option DataDoc
  deriving DecidableEq, Repr

/-- BSON encoding of a `Data` value (the `notes` key is not a member). -/
def marshalData (d : Data) : DataDoc := ⟨d.ID, d.Info, d.Queries, []⟩

/-- Decoding of a stored `data` sub-document into the Go struct `Data`. -/
def decodeData (d : DataDoc) : Data := ⟨d._id, d.info, d.queries⟩

/-- BSON encoding of a `Note`: `omitempty` drops a zero identifier and empty
strings; the nested struct is written as a sub-document. -/
def marshalNote (n : Note) : NoteDoc :=
  { _id := if n.ID = 0 then none else some n.ID
    title := if n.Title = "" then none else some n.Title
    text := if n.Text = "" then none else some n.Text
    data := some (marshalData n.Data)
    lastAccess := none }

/-- Decoding of a stored note into the Go struct `Note`: an absent field
leaves the zero value, the field `lastAccess` has no member to go to. -/
def decodeNote (n : NoteDoc) : Note :=
  { ID := n._id.getD 0
    Title := n.title.getD ""
    Text := n.text.getD ""
    Data := (n.data.map decodeData).getD Data.zero }

/-- Decoding of a stored notebook into the Go struct `Notebook`. -/
def decodeNotebook (d : NotebookDoc) : Notebook :=
  { ID := d._id
    Title := d.title.getD ""
    Notes := (d.notes.getD []).map decodeNote
    Created := d.created.getD 0
    LastAccess := d.lastAccess.getD 0
    Data := (d.data.map decodeData).getD Data.zero }

/-- BSON encoding of a `Notebook` for `InsertOne`.  A zero `ID` is omitted and
the driver fills in the identifier `fresh` it generates. -/
def marshalNotebook (fresh : ObjectID) (n : Notebook) : NotebookDoc :=
  { _id := if n.ID = 0 then fresh else n.ID
    title := if n.Title = "" then none else some n.Title
    notes := if n.Notes = [] then none else some (n.Notes.map marshalNote)
    created := if n.Created = 0 then none else some n.Created
    lastAccess := if n.LastAccess = 0 then none else some n.LastAccess
    data := some (marshalData n.Data) }

/-- Decoding of a notebook document into the Go struct `Data`, as the re-read
of `patchUpdateNoteData` does: only `_id` has a counterpart at top level. -/
def decodeNotebookAsData (d : NotebookDoc) : Data := ⟨d._id, "", []⟩

/-- Decoding of a notebook document into the Go struct `Note`, as the re-reads
of `patchUpdateNoteTitle` and `patchUpdateNoteText` do: `_id`, `title` and
`data` have a counterpart at top level, `text` has none. -/
def decodeNotebookAsNote (d : NotebookDoc) : Note :=
  { ID := d._id
    Title := d.title.getD ""
    Text := ""
    Data := (d.data.map decodeData).getD Data.zero }

/-! ## `primitive.ObjectIDFromHex` -/

/-- Value of one hexadecimal digit (either case), as `encoding/hex` reads it. -/
def hexVal (c : Char) : Option Nat :=
  let n := c.toNat
  if 48 ≤ n ∧ n ≤ 57 then some (n - 48)
  else if 97 ≤ n ∧ n ≤ 102 then some (n - 87)
  else if 65 ≤ n ∧ n ≤ 70 then some (n - 55)
  else none

/-- Big-endian value of a string of hexadecimal digits; `none` when a
character is not one (a character outside ASCII has only bytes above
`0x7f`, none of which is a digit). -/
def hexDecode : Nat → List Char → Option Nat
  | acc, [] => some acc
  | acc, c :: cs =>
    match hexVal c with
    | none => none
    | some v => hexDecode (acc * 16 + v) cs

/-- Byte length of a string (`len(s)` in Go). -/
def byteLen (cs : List Char) : Nat := (cs.map Char.utf8Size).sum

/-- Model of `primitive.ObjectIDFromHex`: the string must be 24 bytes long and
hexadecimal; `none` is `ErrInvalidHex` or the error of the hex decoder. -/
def ObjectIDFromHex (s : String) : Option ObjectID :=
  if byteLen s.data ≠ 24 then none else hexDecode 0 s.data

/-! ## The `notebooks` collection -/

/-- The filter documents of the source. -/
inductive Filter
  /-- The filter `bson.M{}`. -/
  | all
  /-- The filter `bson.M{"_id": id}`. -/
  | byID (id : ObjectID)
  /-- The filter `bson.M{"title": title}`. -/
  | byTitle (title : String)
  /-- The filter `bson.M{"_id": id, "notes._id": noteID}`. -/
  | byIDAndNote (id noteID : ObjectID)
  deriving DecidableEq, Repr

/-- Whether a stored note carries the identifier `noteID`. -/
def NoteDoc.hasID (noteID : ObjectID) (n : NoteDoc) : Bool := n._id == some noteID

/-- Whether a document satisfies a filter.  `notes._id` holds when some element
of the array `notes` has the identifier. -/
def Filter.Matches : Filter → NotebookDoc → Bool
  | .all, _ => true
  | .byID id, d => d._id == id
  | .byTitle title, d => d.title == some title
  | .byIDAndNote id noteID, d => d._id == id && (d.notes.getD []).any (NoteDoc.hasID noteID)

/-- Index of the first element satisfying `p`. -/
def firstIndex (p : NoteDoc → Bool) : List NoteDoc → Option Nat
  | [] => none
  | n :: ns => if p n then some 0 else (firstIndex p ns).map (· + 1)

/-- The array index the positional operator `$` stands for: the first element
of `notes` matched by the array condition of the filter. -/
def Filter.position : Filter → NotebookDoc → Option Nat
  | .byIDAndNote _ noteID, d => firstIndex (NoteDoc.hasID noteID) (d.notes.getD [])
  | _, _ => none

/-- Apply `f` to the element at index `i`, leaving the others as they are. -/
def modifyAt (f : NoteDoc → NoteDoc) : Nat → List NoteDoc → List NoteDoc
  | _, [] => []
  | 0, n :: ns => f n :: ns
  | i + 1, n :: ns => n :: modifyAt f i ns

/-- The `data` member of the payload struct of `patchUpdateNotebookData`
(lines 311-315). -/
structure PatchData where
  Info : String
  Queries : List Query
  Notes : List Note
  deriving DecidableEq, Repr

/-- BSON encoding of the payload struct (no `bson` tags, nothing omitted). -/
def marshalPatchData (d : PatchData) : DataDoc := ⟨0, d.Info, d.Queries, d.Notes⟩

/-- One entry of a `$set` document: the paths the source writes, each with a
value of the type the source gives it. -/
inductive SetField
  /-- Entry `"title": v`. -/
  | title (v : String)
  /-- Entry `"notes": v`. -/
  | notes (v : List Note)
  /-- Entry `"created": v`. -/
  | created (v : Time)
  /-- Entry `"lastAccess": v`. -/
  | lastAccess (v : Time)
  /-- Entry `"data": v`. -/
  | data (v : PatchData)
  /-- Entry `"notes.$.title": v`. -/
  | noteTitle (v : String)
  /-- Entry `"notes.$.text": v`. -/
  | noteText (v : String)
  /-- Entry `"notes.$.lastAccess": v`. -/
  | noteLastAccess (v : Time)
  /-- Entry `"notes.$.data": v`. -/
  | noteData (v : Data)
  /-- Entry `"notes.$[].data": v`. -/
  | allNotesData (v : Data)
  deriving DecidableEq, Repr

/-- The key of an entry of a `$set` document. -/
def SetField.key : SetField → String
  | .title _ => "title"
  | .notes _ => "notes"
  | .created _ => "created"
  | .lastAccess _ => "lastAccess"
  | .data _ => "data"
  | .noteTitle _ => "notes.$.title"
  | .noteText _ => "notes.$.text"
  | .noteLastAccess _ => "notes.$.lastAccess"
  | .noteData _ => "notes.$.data"
  | .allNotesData _ => "notes.$[].data"

/-- An update document: the `$set` entries, the note of
`"$push": {"notes": note}` and the identifier of
`"$pull": {"notes": {"_id": id}}`. -/
structure Update where
  set : List SetField
  push : Option Note
  pull : Option ObjectID
  deriving DecidableEq, Repr

/-- Errors of the store. -/
inductive StoreErr
  /-- The error `mongo.ErrNoDocuments`. -/
  | noDocuments
  /-- Any other error of the driver or the server, with its text. -/
  | other (msg : String)
  deriving DecidableEq, Repr

/-- The text `err.Error()`. -/
def StoreErr.Error : StoreErr → String
  | .noDocuments => "mongo: no documents in result"
  | .other msg => msg

/-- Effect of a positional entry: the element at the position of the match
is rewritten; without a position the server rejects the update. -/
def setPositional (pos : Option Nat) (d : NotebookDoc) (f : NoteDoc → NoteDoc) :
    Except StoreErr NotebookDoc :=
  match pos, d.notes with
  | some i, some ns => .ok { d with notes := some (modifyAt f i ns) }
  | _, _ => .error (.other "The positional operator did not find the match needed from the query.")

/-- Effect of one `$set` entry on a document. -/
def applySet (pos : Option Nat) (d : NotebookDoc) : SetField → Except StoreErr NotebookDoc
  | .title v => .ok { d with title := some v }
  | .notes v => .ok { d with notes := some (v.map marshalNote) }
  | .created v => .ok { d with created := some v }
  | .lastAccess v => .ok { d with lastAccess := some v }
  | .data v => .ok { d with data := some (marshalPatchData v) }
  | .noteTitle v => setPositional pos d (fun n => { n with title := some v })
  | .noteText v => setPositional pos d (fun n => { n with text := some v })
  | .noteLastAccess v => setPositional pos d (fun n => { n with lastAccess := some v })
  | .noteData v => setPositional pos d (fun n => { n with data := some (marshalData v) })
  | .allNotesData v =>
    match d.notes with
    | some ns => .ok { d with notes := some (ns.map (fun n => { n with data := some (marshalData v) })) }
    | none => .error (.other "The path 'notes' must exist in the document in order to apply array updates.")

/-- Effect of the entries of a `$set` document, one after the other (an empty
`$set` changes nothing). -/
def applySets (pos : Option Nat) : List SetField → NotebookDoc → Except StoreErr NotebookDoc
  | [], d => .ok d
  | e :: es, d =>
    match applySet pos d e with
    | .error err => .error err
    | .ok d1 => applySets pos es d1

/-- Effect of `$push` on `notes`: the encoded note is appended (an absent
array is created). -/
def applyPush (push : Option Note) (d : NotebookDoc) : NotebookDoc :=
  match push with
  | none => d
  | some note => { d with notes := some (d.notes.getD [] ++ [marshalNote note]) }

/-- Effect of `$pull` on `notes`: every element with the identifier is
removed (an absent array stays absent). -/
def applyPull (pull : Option ObjectID) (d : NotebookDoc) : NotebookDoc :=
  match pull with
  | none => d
  | some noteID => { d with notes := d.notes.map (List.filter (fun n => !NoteDoc.hasID noteID n)) }

/-- Effect of an update document on a document matched by `f`. -/
def applyUpdate (f : Filter) (u : Update) (d : NotebookDoc) : Except StoreErr NotebookDoc :=
  match applySets (f.position d) u.set d with
  | .error err => .error err
  | .ok d1 => .ok (applyPull u.pull (applyPush u.push d1))

/-- The type `mongo.UpdateResult`. -/
structure UpdateResult where
  MatchedCount : Nat
  ModifiedCount : Nat
  deriving DecidableEq, Repr

/-- Update of the first document matched by `f`, with the document after the
update when there is one. -/
def updateFirst (f : Filter) (u : Update) :
    List NotebookDoc → Except StoreErr (List NotebookDoc × UpdateResult × Option NotebookDoc)
  | [] => .ok ([], ⟨0, 0⟩, none)
  | d :: ds =>
    if f.Matches d then
      match applyUpdate f u d with
      | .error err => .error err
      | .ok d1 => .ok (d1 :: ds, ⟨1, if d1 = d then 0 else 1⟩, some d1)
    else
      match updateFirst f u ds with
      | .error err => .error err
      | .ok (ds1, res, after) => .ok (d :: ds1, res, after)

/-- Update of every document matched by `f`, in natural order.  The
operation is not transactional: it stops at the first document the update
cannot be applied to and keeps what it has written. -/
def updateAll (f : Filter) (u : Update) : List NotebookDoc → List NotebookDoc × Option StoreErr
  | [] => ([], none)
  | d :: ds =>
    if f.Matches d then
      match applyUpdate f u d with
      | .error err => (d :: ds, some err)
      | .ok d1 => (d1 :: (updateAll f u ds).1, (updateAll f u ds).2)
    else (d :: (updateAll f u ds).1, (updateAll f u ds).2)

/-- Removal of the first document matched by `f`. -/
def deleteFirst (f : Filter) : List NotebookDoc → List NotebookDoc
  | [] => []
  | d :: ds => if f.Matches d then ds else d :: deleteFirst f ds

/-- The store operations of the driver. -/
inductive StoreOp
  | find | findOne | findOneAndUpdate | updateOne | updateMany | insertOne | deleteOne | deleteMany
  deriving DecidableEq, Repr

/-- What a request sees of the world besides its own input. -/
structure Env where
  /-- The reading `time.Now()`. -/
  now : Time
  /-- A second reading `time.Now()` within the same request (`postNotebook`). -/
  nowAgain : Time
  /-- Whether the store call number `i` of the request (from 0) fails, and
  with which error text (network, server, cursor). -/
  fault : Nat → Option String
  /-- The identifier the driver generates for an inserted document. -/
  fresh : ObjectID

/-- The collection, and the store operations performed so far by the request
being served. -/
structure Session where
  docs : List NotebookDoc
  calls : List StoreOp
  deriving DecidableEq, Repr

/-- Record a store call. -/
def Session.record (s : Session) (op : StoreOp) : Session := { s with calls := s.calls ++ [op] }

/-- Model of `collection.Find(ctx, f)` with the cursor read to its end. -/
def Find (env : Env) (f : Filter) (s : Session) : Except StoreErr (List NotebookDoc) × Session :=
  match env.fault s.calls.length with
  | some msg => (.error (.other msg), s.record .find)
  | none => (.ok (s.docs.filter f.Matches), s.record .find)

/-- Model of `collection.FindOne(ctx, f)` followed by `Decode`: the first
document matched, or `ErrNoDocuments`. -/
def FindOne (env : Env) (f : Filter) (s : Session) : Except StoreErr NotebookDoc × Session :=
  match env.fault s.calls.length with
  | some msg => (.error (.other msg), s.record .findOne)
  | none =>
    match s.docs.find? f.Matches with
    | none => (.error .noDocuments, s.record .findOne)
    | some d => (.ok d, s.record .findOne)

/-- Model of `collection.UpdateOne(ctx, f, u)`. -/
def UpdateOne (env : Env) (f : Filter) (u : Update) (s : Session) :
    Except StoreErr UpdateResult × Session :=
  match env.fault s.calls.length with
  | some msg => (.error (.other msg), s.record .updateOne)
  | none =>
    match updateFirst f u s.docs with
    | .error err => (.error err, s.record .updateOne)
    | .ok (docs, res, _) => (.ok res, { docs := docs, calls := s.calls ++ [.updateOne] })

/-- Model of `collection.UpdateMany(ctx, f, u)`. -/
def UpdateMany (env : Env) (f : Filter) (u : Update) (s : Session) : Option StoreErr × Session :=
  match env.fault s.calls.length with
  | some msg => (some (.other msg), s.record .updateMany)
  | none => ((updateAll f u s.docs).2, { docs := (updateAll f u s.docs).1, calls := s.calls ++ [.updateMany] })

/-- Model of `collection.FindOneAndUpdate(ctx, f, u,
SetReturnDocument(options.After))` followed by `Decode`. -/
def FindOneAndUpdate (env : Env) (f : Filter) (u : Update) (s : Session) :
    Except StoreErr NotebookDoc × Session :=
  match env.fault s.calls.length with
  | some msg => (.error (.other msg), s.record .findOneAndUpdate)
  | none =>
    match updateFirst f u s.docs with
    | .error err => (.error err, s.record .findOneAndUpdate)
    | .ok (_, _, none) => (.error .noDocuments, s.record .findOneAndUpdate)
    | .ok (docs, _, some d) => (.ok d, { docs := docs, calls := s.calls ++ [.findOneAndUpdate] })

/-- Model of `collection.InsertOne(ctx, notebook)`: the document is added at
the end, unless its `_id` is taken (duplicate key). -/
def InsertOne (env : Env) (n : Notebook) (s : Session) : Option StoreErr × Session :=
  match env.fault s.calls.length with
  | some msg => (some (.other msg), s.record .insertOne)
  | none =>
    if s.docs.any (fun d => d._id == (marshalNotebook env.fresh n)._id) then
      (some (.other "E11000 duplicate key error"), s.record .insertOne)
    else (none, { docs := s.docs ++ [marshalNotebook env.fresh n], calls := s.calls ++ [.insertOne] })

/-- Model of `collection.DeleteOne(ctx, f)`. -/
def DeleteOne (env : Env) (f : Filter) (s : Session) : Option StoreErr × Session :=
  match env.fault s.calls.length with
  | some msg => (some (.other msg), s.record .deleteOne)
  | none => (none, { docs := deleteFirst f s.docs, calls := s.calls ++ [.deleteOne] })

/-- Model of `collection.DeleteMany(ctx, f)`. -/
def DeleteMany (env : Env) (f : Filter) (s : Session) : Option StoreErr × Session :=
  match env.fault s.calls.length with
  | some msg => (some (.other msg), s.record .deleteMany)
  | none => (none, { docs := s.docs.filter (fun d => !f.Matches d), calls := s.calls ++ [.deleteMany] })

/-! ## Requests and responses -/

/-- The request struct of `postNotebook` (lines 194-197). -/
structure NotebookReq where
  Title : String
  Notes : List Note
  deriving DecidableEq, Repr

/-- The payload struct of `patchUpdateNotebookData` (lines 306-316).  A
pointer member is `none` when the payload has no such key (or has `null`). -/
structure DataPatch where
  Title : Option String
  Notes : List Note
  Created : Option Time
  LastAccess : Option Time
  Data : PatchData
  deriving DecidableEq, Repr

/-- The request body, given by what `json.NewDecoder(r.Body).Decode` yields for
each of the target types of the handlers; `none` is a decoding error (its
text `err.Error()` is rendered as `"invalid JSON"` in the replies). -/
structure Body where
  asData : Option Data
  asNote : Option Note
  asNotebookReq : Option NotebookReq
  asDataPatch : Option DataPatch
  asNoteTitle : Option String
  asNoteText : Option String
  deriving DecidableEq, Repr

/-- A request as a handler sees it: the route variables and the body. -/
structure Request where
  vars : List (String × String)
  body : Body
  deriving DecidableEq, Repr

/-- The lookup `params[key]` in the map `mux.Vars(r)`: a missing key gives the
empty string. -/
def param (params : List (String × String)) (key : String) : String :=
  (params.lookup key).getD ""

/-- What a handler writes to the response. -/
inductive Reply
  /-- The text of `http.Error`. -/
  | error (msg : String)
  /-- Nothing but the header. -/
  | empty
  /-- The handler panicked: nothing is written. -/
  | aborted
  | notebooks (v : List Notebook)
  | notebook (v : Notebook)
  /-- The struct `{ID, Title, LastAccess}` of `getNotebookByTitle`. -/
  | summary (ID : ObjectID) (Title : String) (LastAccess : Time)
  /-- The struct `{LastAccess}`. -/
  | lastAccess (v : Time)
  | note (v : Note)
  /-- The struct `{ID, Title, Text}` of `getNoteByID`. -/
  | noteHead (ID : ObjectID) (Title : String) (Text : String)
  | data (v : Data)
  | dataList (v : List Data)
  | notes (v : List Note)
  deriving DecidableEq, Repr

/-- The result of serving a request. -/
structure Outcome where
  status : Nat
  reply : Reply
  session : Session
  deriving DecidableEq, Repr

/-- The call `http.Error(w, msg, code)` followed by `return`. -/
def httpError (s : Session) (msg : String) (code : Nat) : Outcome := ⟨code, .error msg, s⟩

/-- The call `json.NewEncoder(w).Encode(v)` at the end of a handler; the
status is the implicit 200. -/
def encode (s : Session) (v : Reply) : Outcome := ⟨200, v, s⟩

/-- The call `w.WriteHeader(code)` at the end of a handler. -/
def writeHeader (s : Session) (code : Nat) : Outcome := ⟨code, .empty, s⟩

/-- An update document with `$set` only. -/
def setOnly (fields : List SetField) : Update := ⟨fields, none, none⟩

/-! ## Handlers (`main.go`, lines 47-844) -/

/-- Handler `getAllNotebooks` (lines 47-74). -/
def getAllNotebooks (env : Env) (_r : Request) (s : Session) : Outcome :=
  match Find env .all s with
  | (.error err, s1) => httpError s1 err.Error 500
  | (.ok docs, s1) => encode s1 (.notebooks (docs.map decodeNotebook))

/-- Handler `getNotebookByID` (lines 78-110). -/
def getNotebookByID (env : Env) (r : Request) (s : Session) : Outcome :=
  let id := param r.vars "id"
  match ObjectIDFromHex id with
  | none => httpError s "Invalid ID format" 400
  | some objectID =>
    match FindOneAndUpdate env (.byID objectID) (setOnly [.lastAccess env.now]) s with
    | (.error .noDocuments, s1) => httpError s1 "Notebook not found" 404
    | (.error err, s1) => httpError s1 err.Error 500
    | (.ok notebook, s1) => encode s1 (.notebook (decodeNotebook notebook))

/-- Handler `getNotebookByTitle` (lines 114-136). -/
def getNotebookByTitle (env : Env) (r : Request) (s : Session) : Outcome :=
  let title := param r.vars "title"
  match FindOne env (.byTitle title) s with
  | (.error err, s1) => httpError s1 err.Error 404
  | (.ok doc, s1) =>
    let notebook := decodeNotebook doc
    encode s1 (.summary notebook.ID notebook.Title notebook.LastAccess)

/-- Handler `patchUpdateNoteData` (lines 140-188). -/
def patchUpdateNoteData (env : Env) (r : Request) (s : Session) : Outcome :=
  let notebookID := param r.vars "notebookID"
  let noteID := param r.vars "noteID"
  match ObjectIDFromHex notebookID with
  | none => httpError s "Invalid Notebook ID format" 400
  | some notebookObjectID =>
    match ObjectIDFromHex noteID with
    | none => httpError s "Invalid Note ID format" 400
    | some noteObjectID =>
      match r.body.asData with
      | none => httpError s "invalid JSON" 400
      | some data =>
        let update := setOnly [.noteData data, .lastAccess env.now]
        match UpdateOne env (.byIDAndNote notebookObjectID noteObjectID) update s with
        | (.error err, s1) => httpError s1 err.Error 500
        | (.ok result, s1) =>
          if result.ModifiedCount = 0 then
            httpError s1 "Note not found or no changes applied" 404
          else
            match FindOne env (.byIDAndNote notebookObjectID noteObjectID) s1 with
            | (.error err, s2) => httpError s2 err.Error 500
            | (.ok doc, s2) => encode s2 (.data (decodeNotebookAsData doc))

/-- Handler `postNotebook` (lines 191-221). -/
def postNotebook (env : Env) (r : Request) (s : Session) : Outcome :=
  match r.body.asNotebookReq with
  | none => httpError s "invalid JSON" 400
  | some notebookReq =>
    let notebook : Notebook :=
      { ID := 0
        Title := notebookReq.Title
        Notes := notebookReq.Notes
        Created := env.now
        LastAccess := env.nowAgain
        Data := Data.zero }
    match InsertOne env notebook s with
    | (some err, s1) => httpError s1 err.Error 500
    | (none, s1) => encode s1 (.notebook notebook)

/-- Handler `getLastAccessDate` (lines 224-250). -/
def getLastAccessDate (env : Env) (r : Request) (s : Session) : Outcome :=
  let notebookID := param r.vars "notebookID"
  match ObjectIDFromHex notebookID with
  | none => httpError s "Invalid Notebook ID format" 400
  | some objectID =>
    match FindOne env (.byID objectID) s with
    | (.error err, s1) => httpError s1 err.Error 404
    | (.ok doc, s1) => encode s1 (.lastAccess (decodeNotebook doc).LastAccess)

/-- Handler `updateLastAccess` (lines 252-290). -/
def updateLastAccess (env : Env) (r : Request) (s : Session) : Outcome :=
  let id := param r.vars "id"
  match ObjectIDFromHex id with
  | none => httpError s "Invalid ID format" 400
  | some objectID =>
    let update := setOnly [.lastAccess env.now]
    match UpdateOne env (.byID objectID) update s with
    | (.error err, s1) => httpError s1 err.Error 500
    | (.ok result, s1) =>
      if result.ModifiedCount = 0 then
        httpError s1 "Notebook not found or no changes applied" 404
      else
        match FindOne env (.byID objectID) s1 with
        | (.error err, s2) => httpError s2 err.Error 500
        | (.ok doc, s2) => encode s2 (.lastAccess (decodeNotebook doc).LastAccess)

/-- The map `updateFields` built by `patchUpdateNotebookData` (lines 324-339),
entry by entry in the order of the source. -/
def updateFields (dataPatch : DataPatch) : List SetField :=
  (match dataPatch.Title with
    | some title => [SetField.title title]
    | none => []) ++
  (if dataPatch.Notes.length > 0 then [SetField.notes dataPatch.Notes] else []) ++
  (match dataPatch.Created with
    | some created => [SetField.created created]
    | none => []) ++
  (match dataPatch.LastAccess with
    | some lastAccess => [SetField.lastAccess lastAccess]
    | none => []) ++
  (if dataPatch.Data.Info ≠ "" ∨ dataPatch.Data.Queries.length > 0 ∨ dataPatch.Data.Notes.length > 0
    then [SetField.data dataPatch.Data] else [])

/-- Handler `patchUpdateNotebookData` (lines 294-358). -/
def patchUpdateNotebookData (env : Env) (r : Request) (s : Session) : Outcome :=
  let id := param r.vars "id"
  match ObjectIDFromHex id with
  | none => httpError s "Invalid ID format" 400
  | some objectID =>
    match r.body.asDataPatch with
    | none => httpError s "invalid JSON" 400
    | some dataPatch =>
      let update := setOnly (updateFields dataPatch)
      match UpdateOne env (.byID objectID) update s with
      | (.error err, s1) => httpError s1 err.Error 500
      | (.ok _, s1) =>
        match FindOne env (.byID objectID) s1 with
        | (.error err, s2) => httpError s2 err.Error 500
        | (.ok doc, s2) => encode s2 (.notebook (decodeNotebook doc))

/-- Handler `patchUpdateNoteTitle` (lines 362-418). -/
def patchUpdateNoteTitle (env : Env) (r : Request) (s : Session) : Outcome :=
  let notebookID := param r.vars "notebookID"
  let noteID := param r.vars "noteID"
  match ObjectIDFromHex notebookID with
  | none => httpError s "Invalid Notebook ID format" 400
  | some notebookObjectID =>
    match ObjectIDFromHex noteID with
    | none => httpError s "Invalid Note ID format" 400
    | some noteObjectID =>
      match r.body.asNoteTitle with
      | none => httpError s "invalid JSON" 400
      | some noteTitle =>
        let update := setOnly [.noteTitle noteTitle, .noteLastAccess env.now]
        match UpdateOne env (.byIDAndNote notebookObjectID noteObjectID) update s with
        | (.error err, s1) => httpError s1 err.Error 500
        | (.ok result, s1) =>
          if result.ModifiedCount = 0 then
            httpError s1 "Note not found or no changes applied" 404
          else
            match FindOne env (.byIDAndNote notebookObjectID noteObjectID) s1 with
            | (.error err, s2) => httpError s2 err.Error 500
            | (.ok doc, s2) => encode s2 (.note (decodeNotebookAsNote doc))

/-- Handler `removeNotebookByID` (lines 422-440). -/
def removeNotebookByID (env : Env) (r : Request) (s : Session) : Outcome :=
  let id := param r.vars "id"
  match ObjectIDFromHex id with
  | none => httpError s "Invalid ID format" 400
  | some objectID =>
    match DeleteOne env (.byID objectID) s with
    | (some err, s1) => httpError s1 err.Error 404
    | (none, s1) => writeHeader s1 200

/-- Handler `postNote` (lines 442-470). -/
def postNote (env : Env) (r : Request) (s : Session) : Outcome :=
  let notebookID := param r.vars "notebookID"
  match ObjectIDFromHex notebookID with
  | none => httpError s "Invalid Notebook ID format" 400
  | some objectID =>
    match r.body.asNote with
    | none => httpError s "invalid JSON" 400
    | some note =>
      let update : Update := ⟨[.lastAccess env.now], some note, none⟩
      match UpdateOne env (.byID objectID) update s with
      | (.error err, s1) => httpError s1 err.Error 500
      | (.ok _, s1) => encode s1 (.note note)

/-- Handler `removeNoteByID` (lines 472-498). -/
def removeNoteByID (env : Env) (r : Request) (s : Session) : Outcome :=
  let notebookID := param r.vars "notebookID"
  let noteID := param r.vars "noteID"
  match ObjectIDFromHex notebookID with
  | none => httpError s "Invalid Notebook ID format" 400
  | some notebookObjectID =>
    match ObjectIDFromHex noteID with
    | none => httpError s "Invalid Note ID format" 400
    | some noteObjectID =>
      let update : Update := ⟨[.lastAccess env.now], none, some noteObjectID⟩
      match UpdateOne env (.byID notebookObjectID) update s with
      | (.error err, s1) => httpError s1 err.Error 500
      | (.ok _, s1) => writeHeader s1 200

/-- Handler `getDataByNotebookID` (lines 500-526). -/
def getDataByNotebookID (env : Env) (r : Request) (s : Session) : Outcome :=
  let notebookID := param r.vars "notebookID"
  match ObjectIDFromHex notebookID with
  | none => httpError s "Invalid Notebook ID format" 400
  | some objectID =>
    match FindOne env (.byID objectID) s with
    | (.error err, s1) => httpError s1 err.Error 404
    | (.ok doc, s1) => encode s1 (.dataList ((decodeNotebook doc).Notes.map (fun note => note.Data)))

/-- Handler `getDataByNoteAndID` (lines 528-563). -/
def getDataByNoteAndID (env : Env) (r : Request) (s : Session) : Outcome :=
  let notebookID := param r.vars "notebookID"
  let noteID := param r.vars "noteID"
  match ObjectIDFromHex notebookID with
  | none => httpError s "Invalid Notebook ID format" 400
  | some notebookObjectID =>
    match ObjectIDFromHex noteID with
    | none => httpError s "Invalid Note ID format" 400
    | some noteObjectID =>
      match FindOne env (.byID notebookObjectID) s with
      | (.error err, s1) => httpError s1 err.Error 404
      | (.ok doc, s1) =>
        match (decodeNotebook doc).Notes.find? (fun note => note.ID == noteObjectID) with
        | some note => encode s1 (.data note.Data)
        | none => httpError s1 "Note not found" 404

/-- Handler `postData` (lines 565-600). -/
def postData (env : Env) (r : Request) (s : Session) : Outcome :=
  let notebookID := param r.vars "notebookID"
  let noteID := param r.vars "noteID"
  match ObjectIDFromHex notebookID with
  | none => httpError s "Invalid Notebook ID format" 400
  | some notebookObjectID =>
    match ObjectIDFromHex noteID with
    | none => httpError s "Invalid Note ID format" 400
    | some noteObjectID =>
      match r.body.asData with
      | none => httpError s "invalid JSON" 400
      | some data =>
        let update := setOnly [.noteData data, .lastAccess env.now]
        match UpdateOne env (.byIDAndNote notebookObjectID noteObjectID) update s with
        | (.error err, s1) => httpError s1 err.Error 500
        | (.ok _, s1) => encode s1 (.data data)

/-- Handler `removeAllNotebooks` (lines 602-611). -/
def removeAllNotebooks (env : Env) (_r : Request) (s : Session) : Outcome :=
  match DeleteMany env .all s with
  | (some err, s1) => httpError s1 err.Error 500
  | (none, s1) => writeHeader s1 200

/-- Handler `getAllNotesByNotebookID` (lines 614-635). -/
def getAllNotesByNotebookID (env : Env) (r : Request) (s : Session) : Outcome :=
  let notebookID := param r.vars "notebookID"
  match ObjectIDFromHex notebookID with
  | none => httpError s "Invalid Notebook ID format" 400
  | some objectID =>
    match FindOne env (.byID objectID) s with
    | (.error err, s1) => httpError s1 err.Error 404
    | (.ok doc, s1) => encode s1 (.notes (decodeNotebook doc).Notes)

/-- Handler `removeAllData` (lines 636-646). -/
def removeAllData (env : Env) (_r : Request) (s : Session) : Outcome :=
  let update := setOnly [.allNotesData Data.zero]
  match UpdateMany env .all update s with
  | (some err, s1) => httpError s1 err.Error 500
  | (none, s1) => writeHeader s1 200

/-- Handler `removeDataByNotebookID` (lines 648-667). -/
def removeDataByNotebookID (env : Env) (r : Request) (s : Session) : Outcome :=
  let notebookID := param r.vars "notebookID"
  match ObjectIDFromHex notebookID with
  | none => httpError s "Invalid Notebook ID format" 400
  | some notebookObjectID =>
    let update := setOnly [.allNotesData Data.zero]
    match UpdateMany env (.byID notebookObjectID) update s with
    | (some err, s1) => httpError s1 err.Error 500
    | (none, s1) => writeHeader s1 200

/-- Handler `removeDataByNoteAndID` (lines 669-695). -/
def removeDataByNoteAndID (env : Env) (r : Request) (s : Session) : Outcome :=
  let notebookID := param r.vars "notebookID"
  let noteID := param r.vars "noteID"
  match ObjectIDFromHex notebookID with
  | none => httpError s "Invalid Notebook ID format" 400
  | some notebookObjectID =>
    match ObjectIDFromHex noteID with
    | none => httpError s "Invalid Note ID format" 400
    | some noteObjectID =>
      let update := setOnly [.noteData Data.zero]
      match UpdateOne env (.byIDAndNote notebookObjectID noteObjectID) update s with
      | (.error err, s1) => httpError s1 err.Error 500
      | (.ok _, s1) => writeHeader s1 200

/-- Handler `getNoteByID` (lines 697-736).  The projection keeps `_id` and the
matched element of `notes`; the target struct has `_id`, `title` and `text`,
of which only `_id` is at the top level of the projected document.  (A server
that rejects the projection path is a fault of the store call.) -/
def getNoteByID (env : Env) (r : Request) (s : Session) : Outcome :=
  let notebookID := param r.vars "notebookID"
  let noteID := param r.vars "noteID"
  match ObjectIDFromHex notebookID with
  | none => httpError s "Invalid Notebook ID format" 400
  | some notebookObjectID =>
    match ObjectIDFromHex noteID with
    | none => httpError s "Invalid Note ID format" 400
    | some noteObjectID =>
      match FindOne env (.byIDAndNote notebookObjectID noteObjectID) s with
      | (.error err, s1) => httpError s1 err.Error 500
      | (.ok doc, s1) => encode s1 (.noteHead doc._id "" "")

/-- Handler `patchUpdateNoteText` (lines 739-805). -/
def patchUpdateNoteText (env : Env) (r : Request) (s : Session) : Outcome :=
  let notebookID := param r.vars "notebookID"
  let noteID := param r.vars "noteID"
  match ObjectIDFromHex notebookID with
  | none => httpError s "Invalid Notebook ID format" 400
  | some notebookObjectID =>
    match ObjectIDFromHex noteID with
    | none => httpError s "Invalid Note ID format" 400
    | some noteObjectID =>
      match r.body.asNoteText with
      | none => httpError s "invalid JSON" 400
      | some newText =>
        let update := setOnly [.noteText newText, .noteLastAccess env.now]
        match UpdateOne env (.byIDAndNote notebookObjectID noteObjectID) update s with
        | (.error err, s1) => httpError s1 err.Error 500
        | (.ok result, s1) =>
          if result.ModifiedCount = 0 then
            httpError s1 "Note not found or no changes applied" 404
          else
            match FindOne env (.byIDAndNote notebookObjectID noteObjectID) s1 with
            | (.error err, s2) => httpError s2 err.Error 500
            | (.ok doc, s2) => encode s2 (.note (decodeNotebookAsNote doc))

/-- Handler `getAllDataByNoteID` (lines 809-842).  The reply is
`notebook.Notes[0].Data`; the index panics on an empty slice. -/
def getAllDataByNoteID (env : Env) (r : Request) (s : Session) : Outcome :=
  let notebookID := param r.vars "notebookID"
  let noteID := param r.vars "noteID"
  match ObjectIDFromHex notebookID with
  | none => httpError s "Invalid Notebook ID format" 400
  | some notebookObjectID =>
    match ObjectIDFromHex noteID with
    | none => httpError s "Invalid Note ID format" 400
    | some noteObjectID =>
      match FindOne env (.byIDAndNote notebookObjectID noteObjectID) s with
      | (.error err, s1) => httpError s1 err.Error 404
      | (.ok doc, s1) =>
        match (decodeNotebook doc).Notes with
        | note :: _ => encode s1 (.data note.Data)
        | [] => ⟨0, .aborted, s1⟩

/-! ## The router of `main` (lines 854-879) -/

/-- The handlers of the source. -/
inductive Handler
  | getAllNotebooks | getNotebookByID | getNotebookByTitle | patchUpdateNoteData
  | postNotebook | getLastAccessDate | updateLastAccess | patchUpdateNotebookData
  | patchUpdateNoteTitle | removeNotebookByID | postNote | removeNoteByID
  | getDataByNotebookID | getDataByNoteAndID | postData | removeAllNotebooks
  | getAllNotesByNotebookID | removeAllData | removeDataByNotebookID
  | removeDataByNoteAndID | getNoteByID | patchUpdateNoteText | getAllDataByNoteID
  deriving DecidableEq, Repr

/-- The function a handler name stands for. -/
def Handler.run : Handler → Env → Request → Session → Outcome
  | .getAllNotebooks => Falcon.getAllNotebooks
  | .getNotebookByID => Falcon.getNotebookByID
  | .getNotebookByTitle => Falcon.getNotebookByTitle
  | .patchUpdateNoteData => Falcon.patchUpdateNoteData
  | .postNotebook => Falcon.postNotebook
  | .getLastAccessDate => Falcon.getLastAccessDate
  | .updateLastAccess => Falcon.updateLastAccess
  | .patchUpdateNotebookData => Falcon.patchUpdateNotebookData
  | .patchUpdateNoteTitle => Falcon.patchUpdateNoteTitle
  | .removeNotebookByID => Falcon.removeNotebookByID
  | .postNote => Falcon.postNote
  | .removeNoteByID => Falcon.removeNoteByID
  | .getDataByNotebookID => Falcon.getDataByNotebookID
  | .getDataByNoteAndID => Falcon.getDataByNoteAndID
  | .postData => Falcon.postData
  | .removeAllNotebooks => Falcon.removeAllNotebooks
  | .getAllNotesByNotebookID => Falcon.getAllNotesByNotebookID
  | .removeAllData => Falcon.removeAllData
  | .removeDataByNotebookID => Falcon.removeDataByNotebookID
  | .removeDataByNoteAndID => Falcon.removeDataByNoteAndID
  | .getNoteByID => Falcon.getNoteByID
  | .patchUpdateNoteText => Falcon.patchUpdateNoteText
  | .getAllDataByNoteID => Falcon.getAllDataByNoteID

/-- Serving a request with a handler on a collection: the session starts with
no store call made. -/
def serve (h : Handler) (env : Env) (r : Request) (docs : List NotebookDoc) : Outcome :=
  h.run env r ⟨docs, []⟩

/-- The keys of `mux.Vars(r)` a handler reads and passes to
`primitive.ObjectIDFromHex` (the `params[...]` lines of each handler). -/
def Handler.identifierVars : Handler → List String
  | .getAllNotebooks => []
  | .getNotebookByID => ["id"]
  | .getNotebookByTitle => []
  | .patchUpdateNoteData => ["notebookID", "noteID"]
  | .postNotebook => []
  | .getLastAccessDate => ["notebookID"]
  | .updateLastAccess => ["id"]
  | .patchUpdateNotebookData => ["id"]
  | .patchUpdateNoteTitle => ["notebookID", "noteID"]
  | .removeNotebookByID => ["id"]
  | .postNote => ["notebookID"]
  | .removeNoteByID => ["notebookID", "noteID"]
  | .getDataByNotebookID => ["notebookID"]
  | .getDataByNoteAndID => ["notebookID", "noteID"]
  | .postData => ["notebookID", "noteID"]
  | .removeAllNotebooks => []
  | .getAllNotesByNotebookID => ["notebookID"]
  | .removeAllData => []
  | .removeDataByNotebookID => ["notebookID"]
  | .removeDataByNoteAndID => ["notebookID", "noteID"]
  | .getNoteByID => ["notebookID", "noteID"]
  | .patchUpdateNoteText => ["notebookID", "noteID"]
  | .getAllDataByNoteID => ["notebookID", "noteID"]

/-- A registered route: `router.HandleFunc(template, handler).Methods(method)`. -/
structure Route where
  template : String
  handler : Handler
  method : String
  deriving DecidableEq, Repr

/-- The routes of `main`, in the order of registration. -/
def routes : List Route :=
  [ ⟨"/notebooks", .getAllNotebooks, "GET"⟩,
    ⟨"/notebooks/{id}", .getNotebookByID, "GET"⟩,
    ⟨"/notebooks/{title}", .getNotebookByTitle, "GET"⟩,
    ⟨"/notebooks", .postNotebook, "POST"⟩,
    ⟨"/notebooks/{id}", .removeNotebookByID, "DELETE"⟩,
    ⟨"/notebook/{notebookID}/notes", .postNote, "POST"⟩,
    ⟨"/notebooks/{notebookID}/notes/{noteID}", .removeNoteByID, "DELETE"⟩,
    ⟨"/notebooks/{notebookID}/lastaccess", .updateLastAccess, "POST"⟩,
    ⟨"/notebooks/{notebookID}/data", .getDataByNotebookID, "GET"⟩,
    ⟨"/notebooks/{notebookID}/notes/{noteID}/data", .getDataByNoteAndID, "GET"⟩,
    ⟨"/notebooks/{notebookID}/notes/{noteID}/data", .postData, "POST"⟩,
    ⟨"/notebooks/{notebookID}/notes/{noteID}/data", .removeDataByNoteAndID, "DELETE"⟩,
    ⟨"/notebooks/{notebookID}/data", .removeDataByNotebookID, "DELETE"⟩,
    ⟨"/notebooks/removeAll", .removeAllNotebooks, "DELETE"⟩,
    ⟨"/notebooks/removeAllData", .removeAllData, "DELETE"⟩,
    ⟨"/notebooks/{id}/data", .patchUpdateNotebookData, "PATCH"⟩,
    ⟨"/notebooks/{notebookID}/notes/{noteID}/data", .patchUpdateNoteData, "PATCH"⟩,
    ⟨"/notebooks/{notebookID}/notes/{noteID}/title", .patchUpdateNoteTitle, "PATCH"⟩,
    ⟨"/notebooks/{notebookID}/lastaccessdate", .getLastAccessDate, "GET"⟩,
    ⟨"/notebooks/{notebookID}/notes/{noteID}", .getNoteByID, "GET"⟩,
    ⟨"/notebooks/{notebookID}/notes/{noteID}/text", .patchUpdateNoteText, "PATCH"⟩,
    ⟨"/notebooks/{notebookID}/notes/{noteID}/alldata", .getAllDataByNoteID, "GET"⟩,
    ⟨"/notebooks/{notebookID}/notes", .getAllNotesByNotebookID, "GET"⟩ ]

/-- The segments of a path or template: the pieces between the slashes. -/
def splitSlash : List Char → List Char → List (List Char)
  | cur, [] => [cur.reverse]
  | cur, c :: cs => if c = '/' then cur.reverse :: splitSlash [] cs else splitSlash (c :: cur) cs

/-- The name of a `{name}` segment of a template, if it is one. -/
def varName (seg : List Char) : Option String :=
  match seg with
  | '{' :: rest =>
    match rest.reverse with
    | '}' :: name => some (String.mk name.reverse)
    | _ => none
  | _ => none

/-- Matching of the segments of a template against those of a path: a literal
segment matches itself, a `{name}` segment matches any non-empty segment and
binds the variable. -/
def matchSegments : List (List Char) → List (List Char) → Option (List (String × String))
  | [], [] => some []
  | t :: ts, p :: ps =>
    match varName t with
    | some name =>
      if p = [] then none else (matchSegments ts ps).map (fun vars => (name, String.mk p) :: vars)
    | none => if t = p then matchSegments ts ps else none
  | _, _ => none

/-- Whether a route matches a request; the variables it binds. -/
def Route.matchRequest (rt : Route) (method path : String) : Option (List (String × String)) :=
  if rt.method = method then
    matchSegments (splitSlash [] rt.template.data) (splitSlash [] path.data)
  else none

/-- Whether a path segment survives `path.Clean`: it is neither `.` nor `..`. -/
def cleanSegment (seg : List Char) : Bool := seg != ['.'] && seg != ['.', '.']

/-- Whether the segments after the leading slash are those of a clean path:
no segment is `.` or `..` and only the last one may be empty (a trailing
slash). -/
def cleanSegments : List (List Char) → Bool
  | [] => false
  | [last] => cleanSegment last
  | seg :: rest => seg != [] && cleanSegment seg && cleanSegments rest

/-- Whether the router's `cleanPath` leaves the path as it is: the path starts
with a slash and has no empty, `.` or `..` segment. -/
def isCleanPath (path : String) : Bool :=
  match splitSlash [] path.data with
  | [] :: rest => cleanSegments rest
  | _ => false

/-- The router: a path that is not clean is redirected and matches no
handler; otherwise the routes are tried in the order of registration and the
first one that matches the method and the path wins. -/
def dispatch (method path : String) : Option (Handler × List (String × String)) :=
  if isCleanPath path then
    routes.findSome? (fun rt => (rt.matchRequest method path).map (fun vars => (rt.handler, vars)))
  else none

/-- Serving a request through the router: a path that is not clean is
answered 301 with no handler run; `none` when no route matches. -/
def handle (env : Env) (method path : String) (body : Body) (docs : List NotebookDoc) :
    Option Outcome :=
  if isCleanPath path then
    (dispatch method path).map (fun hv => serve hv.1 env ⟨hv.2, body⟩ docs)
  else some ⟨301, .empty, ⟨docs, []⟩⟩

/-! ## Sample data -/

/-- A request environment: the clock reads 9, the store does not fail. -/
def sampleEnv : Env := ⟨9, 9, fun _ => none, 77⟩

/-- A body that decodes into none of the target types. -/
def noBody : Body := ⟨none, none, none, none, none, none⟩

/-- A stored note with identifier 11. -/
def noteCh1 : NoteDoc := ⟨some 11, some "Ch1", some "intro", some ⟨0, "first", [], []⟩, none⟩

/-- A stored note with identifier 12. -/
def noteCh2 : NoteDoc := ⟨some 12, some "Ch2", some "more", some ⟨0, "second", [], []⟩, none⟩

/-- A stored notebook with identifier 10 and two notes, last accessed at 5. -/
def physics : NotebookDoc :=
  ⟨10, some "Physics", some [noteCh1, noteCh2], some 5, some 5, some ⟨0, "", [], []⟩⟩

/-- A stored notebook with identifier 13 and no notes. -/
def chemistry : NotebookDoc := ⟨13, some "Chemistry", none, some 3, some 4, none⟩

/-- The hexadecimal form of the identifier 10. -/
def hex10 : String := "00000000000000000000000a"

/-- The hexadecimal form of the identifier 11. -/
def hex11 : String := "00000000000000000000000b"

/-- The hexadecimal form of the identifier 12. -/
def hex12 : String := "00000000000000000000000c"

/-- The hexadecimal form of the identifier 13. -/
def hex13 : String := "00000000000000000000000d"

/-- The payload `{"title": title}` decoded by `patchUpdateNotebookData`: the
title is present, every other member is absent. -/
def titleOnly (title : String) : DataPatch := ⟨some title, [], none, none, ⟨"", [], []⟩⟩

/-- A body that decodes into the given payload of `patchUpdateNotebookData`. -/
def patchBody (p : DataPatch) : Body := ⟨none, none, none, some p, none, none⟩

/-- A body `{"title": ..., "text": ..., ...}` that decodes into every target
type the note handlers use. -/
def noteBody (title text : String) (data : Data) : Body :=
  ⟨some data, some ⟨0, title, text, data⟩, none, none, some title, some text⟩

/-- The hexadecimal form of the zero identifier. -/
def hex0 : String := "000000000000000000000000"

/-- The notebook 13 after `postNote` of `{"title": "Ch1", "text": "intro"}` at
time 9: the stored note has no `_id`. -/
def chemistryNoted : NotebookDoc :=
  ⟨13, some "Chemistry", some [⟨none, some "Ch1", some "intro", some ⟨0, "", [], []⟩, none⟩],
    some 3, some 9, none⟩

/-- A request environment whose store calls all fail: the clock reads 9. -/
def faultyEnv : Env := ⟨9, 9, fun _ => some "server selection timeout", 77⟩

/-- A body `{"title": title, "notes": notes}` as `postNotebook` decodes it. -/
def notebookBody (title : String) (notes : List Note) : Body :=
  ⟨none, none, some ⟨title, notes⟩, none, none, none⟩

theorem Matches_byID_iff (id : ObjectID) (d : NotebookDoc) :
    (Filter.byID id).Matches d = true ↔ d._id = id := by
  simp [Filter.Matches]

theorem Matches_byIDAndNote_iff (id noteID : ObjectID) (d : NotebookDoc) :
    (Filter.byIDAndNote id noteID).Matches d = true ↔
      d._id = id ∧ ∃ n ∈ d.notes.getD [], n._id = some noteID := by
  simp [Filter.Matches, NoteDoc.hasID]

theorem updateFirst_no_match (f : Filter) (u : Update) :
    ∀ docs : List NotebookDoc, (∀ x ∈ docs, f.Matches x = false) →
      updateFirst f u docs = .ok (docs, ⟨0, 0⟩, none) := by
  intro docs
  induction docs with
  | nil => intro _; rfl
  | cons d ds ih =>
    intro h
    have hd : f.Matches d = false := h d (by simp)
    have hds : ∀ x ∈ ds, f.Matches x = false := fun x hx => h x (by simp [hx])
    simp [updateFirst, hd, ih hds]

theorem updateFirst_at (f : Filter) (u : Update) (d d1 : NotebookDoc) (post : List NotebookDoc)
    (hd : f.Matches d = true) (hu : applyUpdate f u d = .ok d1) :
    ∀ pre : List NotebookDoc, (∀ x ∈ pre, f.Matches x = false) →
      updateFirst f u (pre ++ d :: post) =
        .ok (pre ++ d1 :: post, ⟨1, if d1 = d then 0 else 1⟩, some d1) := by
  intro pre
  induction pre with
  | nil => intro _; simp [updateFirst, hd, hu]
  | cons x xs ih =>
    intro h
    have hx : f.Matches x = false := h x (by simp)
    have hxs : ∀ y ∈ xs, f.Matches y = false := fun y hy => h y (by simp [hy])
    simp [updateFirst, hx, ih hxs]

theorem FindOne_docs (env : Env) (f : Filter) (s : Session) :
    (FindOne env f s).2.docs = s.docs := by
  unfold FindOne
  split
  · rfl
  · split <;> rfl

theorem byID_no_match {id : ObjectID} {docs : List NotebookDoc}
    (h : ∀ x ∈ docs, x._id ≠ id) : ∀ x ∈ docs, (Filter.byID id).Matches x = false := by
  intro x hx
  simp [Filter.Matches, h x hx]

theorem byIDAndNote_no_match {id noteID : ObjectID} {docs : List NotebookDoc}
    (h : ∀ x ∈ docs, ¬(x._id = id ∧ ∃ n ∈ x.notes.getD [], n._id = some noteID)) :
    ∀ x ∈ docs, (Filter.byIDAndNote id noteID).Matches x = false := by
  intro x hx
  have := h x hx
  rw [← Matches_byIDAndNote_iff] at this
  simpa using this

theorem updateFirst_ok (f : Filter) (u : Update)
    (h : ∀ d, ∃ d1, applyUpdate f u d = .ok d1) :
    ∀ docs : List NotebookDoc, ∃ res, updateFirst f u docs = .ok res := by
  intro docs
  induction docs with
  | nil => exact ⟨_, rfl⟩
  | cons d ds ih =>
    obtain ⟨res, hres⟩ := ih
    obtain ⟨d1, hd1⟩ := h d
    by_cases hm : f.Matches d = true
    · exact ⟨(d1 :: ds, ⟨1, if d1 = d then 0 else 1⟩, some d1), by simp [updateFirst, hm, hd1]⟩
    · exact ⟨(d :: res.1, res.2), by simp [updateFirst, hm, hres]⟩

theorem decodeData_marshalData (d : Data) : decodeData (marshalData d) = d := rfl

theorem decodeNote_marshalNote (n : Note) : decodeNote (marshalNote n) = n := by
  rcases n with ⟨id, title, text, data⟩
  simp only [decodeNote, marshalNote, Option.map_some', Option.getD_some, decodeData_marshalData,
    Note.mk.injEq, and_true]
  refine ⟨?_, ?_, ?_⟩ <;> split <;> simp_all

theorem hasID_eq (noteID : ObjectID) :
    (fun n : NoteDoc => !NoteDoc.hasID noteID n) = (fun n => decide (n._id ≠ some noteID)) := by
  funext n
  cases hn : n._id with
  | none => simp [NoteDoc.hasID, hn]
  | some v => by_cases h : v = noteID <;> simp [NoteDoc.hasID, hn, h]

/-! ## Claims -/

/-- C1. Every handler that reads a notebook or note identifier from the route
variables answers 400 when one of these identifiers is not a well-formed
ObjectID hex string, performs no store operation and leaves the collection as
it was. -/
theorem malformed_identifier_is_rejected (h : Handler) (env : Env) (r : Request)
    (docs : List NotebookDoc) (key : String) (hkey : key ∈ h.identifierVars)
    (hbad : ObjectIDFromHex (param r.vars key) = none) :
    (serve h env r docs).status = 400 ∧ (serve h env r docs).session.calls = [] ∧
      (serve h env r docs).session.docs = docs := by
  cases h <;> simp [Handler.identifierVars] at hkey <;>
    first
    | (subst hkey
       simp [serve, Handler.run, getNotebookByID, patchUpdateNoteData, getLastAccessDate,
         updateLastAccess, patchUpdateNotebookData, patchUpdateNoteTitle, removeNotebookByID,
         postNote, removeNoteByID, getDataByNotebookID, getDataByNoteAndID, postData,
         getAllNotesByNotebookID, removeDataByNotebookID, removeDataByNoteAndID, getNoteByID,
         patchUpdateNoteText, getAllDataByNoteID, hbad, httpError])
    | (rcases hkey with hkey | hkey <;> subst hkey <;>
        [skip; cases hfst : ObjectIDFromHex (param r.vars "notebookID")] <;>
       simp [serve, Handler.run, patchUpdateNoteData, patchUpdateNoteTitle, removeNoteByID,
         getDataByNoteAndID, postData, removeDataByNoteAndID, getNoteByID,
         patchUpdateNoteText, getAllDataByNoteID, hbad, httpError, *])

/-- Witness of C1: `removeDataByNoteAndID` with a well-formed notebook
identifier and the note identifier `xyz`. -/
theorem malformed_identifier_is_rejected_witness :
    (serve .removeDataByNoteAndID sampleEnv ⟨[("notebookID", hex10), ("noteID", "xyz")], noBody⟩
        [physics]).status = 400 ∧
      (serve .removeDataByNoteAndID sampleEnv ⟨[("notebookID", hex10), ("noteID", "xyz")], noBody⟩
        [physics]).session.calls = [] ∧
      (serve .removeDataByNoteAndID sampleEnv ⟨[("notebookID", hex10), ("noteID", "xyz")], noBody⟩
        [physics]).session.docs = [physics] :=
  malformed_identifier_is_rejected .removeDataByNoteAndID sampleEnv
    ⟨[("notebookID", hex10), ("noteID", "xyz")], noBody⟩ [physics] "noteID" (by decide) (by decide)

/-- C2. `getNotebookByID` with a well-formed identifier, the store answering:
when a notebook with that identifier is stored, its `lastAccess` becomes the
current time, its other fields and the other notebooks stay as they were, and
the response is 200 with the document after the update (the stored fields,
an absent one as the zero value, and `LastAccess` the current time); when no
notebook has the identifier, the response is 404 and the collection is
unchanged. -/
theorem getNotebookByID_touches_and_returns (env : Env) (r : Request) (docs : List NotebookDoc)
    (objectID : ObjectID) (hid : ObjectIDFromHex (param r.vars "id") = some objectID)
    (hok : env.fault 0 = none) :
    (∀ pre d post, docs = pre ++ d :: post → (∀ x ∈ pre, x._id ≠ objectID) → d._id = objectID →
        serve .getNotebookByID env r docs =
          ⟨200,
            .notebook
              { ID := objectID
                Title := d.title.getD ""
                Notes := (d.notes.getD []).map (fun n =>
                  { ID := n._id.getD 0
                    Title := n.title.getD ""
                    Text := n.text.getD ""
                    Data := (n.data.map (fun x => (⟨x._id, x.info, x.queries⟩ : Data))).getD
                      ⟨0, "", []⟩ })
                Created := d.created.getD 0
                LastAccess := env.now
                Data := (d.data.map (fun x => (⟨x._id, x.info, x.queries⟩ : Data))).getD
                  ⟨0, "", []⟩ },
            ⟨pre ++ { d with lastAccess := some env.now } :: post, [.findOneAndUpdate]⟩⟩) ∧
    ((∀ x ∈ docs, x._id ≠ objectID) →
        (serve .getNotebookByID env r docs).status = 404 ∧
          (serve .getNotebookByID env r docs).session.docs = docs) := by
  constructor
  · intro pre d post hdocs hpre hd
    have hm : (Filter.byID objectID).Matches d = true := (Matches_byID_iff _ _).2 hd
    have hu : applyUpdate (.byID objectID) (setOnly [.lastAccess env.now]) d =
        .ok { d with lastAccess := some env.now } := rfl
    subst hd
    show serve .getNotebookByID env r docs =
      ⟨200, .notebook (decodeNotebook { d with lastAccess := some env.now }),
        ⟨pre ++ { d with lastAccess := some env.now } :: post, [.findOneAndUpdate]⟩⟩
    simp [serve, Handler.run, getNotebookByID, hid, FindOneAndUpdate, hok, hdocs,
      updateFirst_at _ _ _ _ _ hm hu pre (byID_no_match hpre), encode]
  · intro hnone
    simp [serve, Handler.run, getNotebookByID, hid, FindOneAndUpdate, hok,
      updateFirst_no_match _ _ docs (byID_no_match hnone), httpError, Session.record]

/-- Witness of C2: fetching the stored notebook 10 at time 9 answers with its
title, its two notes, its creation time 5 and the access time 9. -/
theorem getNotebookByID_touches_and_returns_witness :
    serve .getNotebookByID sampleEnv ⟨[("id", hex10)], noBody⟩ [chemistry, physics] =
      ⟨200,
        .notebook ⟨10, "Physics",
          [⟨11, "Ch1", "intro", ⟨0, "first", []⟩⟩, ⟨12, "Ch2", "more", ⟨0, "second", []⟩⟩],
          5, 9, ⟨0, "", []⟩⟩,
        ⟨[chemistry,
            ⟨10, some "Physics", some [noteCh1, noteCh2], some 5, some 9, some ⟨0, "", [], []⟩⟩],
          [.findOneAndUpdate]⟩⟩ :=
  (getNotebookByID_touches_and_returns sampleEnv ⟨[("id", hex10)], noBody⟩ [chemistry, physics] 10
    (by decide) rfl).1 [chemistry] physics [] rfl (by decide) rfl

/-- C3. `patchUpdateNotebookData` on a stored notebook with a payload that has
only the field `title`, the store answering the update: the stored title
becomes the title of the payload; `notes`, `created` and `data` (and every
other field, and every other notebook) stay as they were. -/
theorem patch_title_only_sets_title (env : Env) (r : Request) (objectID : ObjectID) (X : String)
    (pre post : List NotebookDoc) (d : NotebookDoc)
    (hid : ObjectIDFromHex (param r.vars "id") = some objectID)
    (hbody : r.body.asDataPatch = some (titleOnly X)) (hok : env.fault 0 = none)
    (hpre : ∀ x ∈ pre, x._id ≠ objectID) (hd : d._id = objectID) :
    (serve .patchUpdateNotebookData env r (pre ++ d :: post)).session.docs =
        pre ++ { d with title := some X } :: post ∧
      ({ d with title := some X } : NotebookDoc).notes = d.notes ∧
      ({ d with title := some X } : NotebookDoc).created = d.created ∧
      ({ d with title := some X } : NotebookDoc).data = d.data := by
  refine ⟨?_, rfl, rfl, rfl⟩
  have hm : (Filter.byID objectID).Matches d = true := (Matches_byID_iff _ _).2 hd
  have hu : applyUpdate (.byID objectID) (setOnly (updateFields (titleOnly X))) d =
      .ok { d with title := some X } := rfl
  have hF := FindOne_docs env (.byID objectID)
    ⟨pre ++ { d with title := some X } :: post, [.updateOne]⟩
  rcases hres : FindOne env (.byID objectID)
    ⟨pre ++ { d with title := some X } :: post, [.updateOne]⟩ with ⟨res, s2⟩
  rw [hres] at hF
  simp only at hF
  cases res <;>
    simp [serve, Handler.run, patchUpdateNotebookData, hid, hbody, UpdateOne, hok,
      updateFirst_at _ _ _ _ _ hm hu pre (byID_no_match hpre), hres, httpError, encode, hF]

/-- Witness of C3: the title of the stored notebook 10 is replaced. -/
theorem patch_title_only_sets_title_witness :
    (serve .patchUpdateNotebookData sampleEnv ⟨[("id", hex10)], patchBody (titleOnly "X")⟩
        ([chemistry] ++ physics :: [])).session.docs =
      [chemistry] ++ { physics with title := some "X" } :: [] :=
  (patch_title_only_sets_title sampleEnv ⟨[("id", hex10)], patchBody (titleOnly "X")⟩ 10 "X"
    [chemistry] [] physics (by decide) rfl rfl (by decide) rfl).1

/-- C4 as stated fails: a payload whose title is present and empty puts the
entry `title` into the `$set` document, and the stored title is overwritten
with the empty string. -/
theorem empty_title_overwrites :
    SetField.title "" ∈ updateFields (titleOnly "") ∧
      (serve .patchUpdateNotebookData sampleEnv ⟨[("id", hex10)], patchBody (titleOnly "")⟩
        [physics]).session.docs = [{ physics with title := some "" }] := by
  decide

/-- C4, amended. The `$set` document of `patchUpdateNotebookData` has the
entry `title`, `created`, `lastAccess` exactly when the payload has the field
(whatever its value, the empty string included), the entry `notes` exactly
when the payload has a non-empty note sequence, the entry `data` exactly when
one of `info`, `queries`, `notes` of the payload's `data` is non-empty; each
entry carries the value of the payload, and there is no other entry. -/
theorem updateFields_entries (p : DataPatch) :
    (∀ v, SetField.title v ∈ updateFields p ↔ p.Title = some v) ∧
    (∀ v, SetField.notes v ∈ updateFields p ↔ (p.Notes = v ∧ v ≠ [])) ∧
    (∀ v, SetField.created v ∈ updateFields p ↔ p.Created = some v) ∧
    (∀ v, SetField.lastAccess v ∈ updateFields p ↔ p.LastAccess = some v) ∧
    (∀ v, SetField.data v ∈ updateFields p ↔
      (p.Data = v ∧ (v.Info ≠ "" ∨ v.Queries ≠ [] ∨ v.Notes ≠ []))) ∧
    (∀ e ∈ updateFields p, e.key ∈ ["title", "notes", "created", "lastAccess", "data"]) := by
  rcases p with ⟨title, notes, created, lastAccess, data⟩
  refine ⟨?_, ?_, ?_, ?_, ?_, ?_⟩
  · intro v
    cases title <;> cases created <;> cases lastAccess <;>
      simp [updateFields, List.mem_append, List.mem_ite_nil_right, eq_comm]
  · intro v
    cases title <;> cases created <;> cases lastAccess <;>
      simp [updateFields, List.mem_append, List.mem_ite_nil_right, List.length_pos, eq_comm] <;>
      (constructor <;> rintro ⟨h1, h2⟩ <;> simp_all)
  · intro v
    cases title <;> cases created <;> cases lastAccess <;>
      simp [updateFields, List.mem_append, List.mem_ite_nil_right, eq_comm]
  · intro v
    cases title <;> cases created <;> cases lastAccess <;>
      simp [updateFields, List.mem_append, List.mem_ite_nil_right, eq_comm]
  · intro v
    cases title <;> cases created <;> cases lastAccess <;>
      simp [updateFields, List.mem_append, List.mem_ite_nil_right, List.length_pos, eq_comm] <;>
      (constructor <;> rintro ⟨h1, h2⟩ <;> simp_all)
  · intro e he
    simp only [updateFields, List.mem_append] at he
    rcases he with (((he | he) | he) | he) | he
    · cases title <;> simp at he
      subst he
      simp [SetField.key]
    · split at he <;> simp at he
      subst he
      simp [SetField.key]
    · cases created <;> simp at he
      subst he
      simp [SetField.key]
    · cases lastAccess <;> simp at he
      subst he
      simp [SetField.key]
    · split at he <;> simp at he
      subst he
      simp [SetField.key]

/-- Witness of C4, amended: the payload with the single field `title` puts
the entry `title`, and no entry `created`, into the `$set` document. -/
theorem updateFields_entries_witness :
    SetField.title "X" ∈ updateFields (titleOnly "X") ∧
      SetField.created 3 ∉ updateFields (titleOnly "X") :=
  ⟨((updateFields_entries (titleOnly "X")).1 "X").2 rfl,
    fun h => nomatch ((updateFields_entries (titleOnly "X")).2.2.1 3).1 h⟩

/-- C5 as stated fails: `removeDataByNoteAndID` answers 200 when no stored
document matches the compound key (notebook 13 has no note 11). -/
theorem removeDataByNoteAndID_no_match_is_200 :
    (∀ x ∈ [chemistry, physics], ¬(x._id = 13 ∧ ∃ n ∈ x.notes.getD [], n._id = some 11)) ∧
      (serve .removeDataByNoteAndID sampleEnv ⟨[("notebookID", hex13), ("noteID", hex11)], noBody⟩
        [chemistry, physics]).status = 200 := by
  decide

/-- C5, amended. With well-formed identifiers, a decodable body and the store
answering, when no stored document matches the compound key:
`patchUpdateNoteData`, `patchUpdateNoteTitle` and `patchUpdateNoteText` answer
404, and `removeDataByNoteAndID`, which does not look at the result of the
update, answers 200; the collection is unchanged in each case. -/
theorem compound_key_no_match (env : Env) (r : Request) (docs : List NotebookDoc)
    (notebookObjectID noteObjectID : ObjectID)
    (hnb : ObjectIDFromHex (param r.vars "notebookID") = some notebookObjectID)
    (hnote : ObjectIDFromHex (param r.vars "noteID") = some noteObjectID)
    (hok : env.fault 0 = none)
    (hnone : ∀ x ∈ docs,
      ¬(x._id = notebookObjectID ∧ ∃ n ∈ x.notes.getD [], n._id = some noteObjectID)) :
    (∀ data, r.body.asData = some data →
      (serve .patchUpdateNoteData env r docs).status = 404 ∧
        (serve .patchUpdateNoteData env r docs).session.docs = docs) ∧
    (∀ title, r.body.asNoteTitle = some title →
      (serve .patchUpdateNoteTitle env r docs).status = 404 ∧
        (serve .patchUpdateNoteTitle env r docs).session.docs = docs) ∧
    (∀ text, r.body.asNoteText = some text →
      (serve .patchUpdateNoteText env r docs).status = 404 ∧
        (serve .patchUpdateNoteText env r docs).session.docs = docs) ∧
    ((serve .removeDataByNoteAndID env r docs).status = 200 ∧
      (serve .removeDataByNoteAndID env r docs).session.docs = docs) := by
  have hm := byIDAndNote_no_match hnone
  refine ⟨?_, ?_, ?_, ?_⟩
  · intro data hbody
    simp [serve, Handler.run, patchUpdateNoteData, hnb, hnote, hbody, UpdateOne, hok,
      updateFirst_no_match _ _ docs hm, httpError]
  · intro title hbody
    simp [serve, Handler.run, patchUpdateNoteTitle, hnb, hnote, hbody, UpdateOne, hok,
      updateFirst_no_match _ _ docs hm, httpError]
  · intro text hbody
    simp [serve, Handler.run, patchUpdateNoteText, hnb, hnote, hbody, UpdateOne, hok,
      updateFirst_no_match _ _ docs hm, httpError]
  · simp [serve, Handler.run, removeDataByNoteAndID, hnb, hnote, UpdateOne, hok,
      updateFirst_no_match _ _ docs hm, writeHeader]

/-- Witness of C5, amended: notebook 13 has no note 11. -/
theorem compound_key_no_match_witness :
    (serve .patchUpdateNoteTitle sampleEnv
        ⟨[("notebookID", hex13), ("noteID", hex11)], noteBody "T" "" Data.zero⟩
        [chemistry, physics]).status = 404 ∧
      (serve .patchUpdateNoteTitle sampleEnv
        ⟨[("notebookID", hex13), ("noteID", hex11)], noteBody "T" "" Data.zero⟩
        [chemistry, physics]).session.docs = [chemistry, physics] :=
  (compound_key_no_match sampleEnv
    ⟨[("notebookID", hex13), ("noteID", hex11)], noteBody "T" "" Data.zero⟩
    [chemistry, physics] 13 11 (by decide) (by decide) rfl (by decide)).2.1 "T" rfl

/-- C6 at a failing input: `patchUpdateNoteTitle` and `patchUpdateNoteText`,
served at time 9 for note 11 of notebook 10, rewrite the matched note (its
title or text and its `lastAccess`) and nothing else: the `lastAccess` of the
notebook keeps its value 5. -/
theorem note_patch_keeps_notebook_lastAccess :
    sampleEnv.now = 9 ∧
    (serve .patchUpdateNoteTitle sampleEnv
        ⟨[("notebookID", hex10), ("noteID", hex11)], noteBody "Chapter 1" "" Data.zero⟩
        [physics]).session.docs =
      [{ physics with
          notes := some [{ noteCh1 with title := some "Chapter 1", lastAccess := some 9 }, noteCh2]
          lastAccess := some 5 }] ∧
    (serve .patchUpdateNoteText sampleEnv
        ⟨[("notebookID", hex10), ("noteID", hex11)], noteBody "" "new text" Data.zero⟩
        [physics]).session.docs =
      [{ physics with
          notes := some [{ noteCh1 with text := some "new text", lastAccess := some 9 }, noteCh2]
          lastAccess := some 5 }] := by
  decide

/-- C7. `postNote` with the well-formed identifier of a stored notebook and a
decodable note, the store answering: the note sequence of the notebook is the
previous one with the note appended at the end, the `lastAccess` of the
notebook is the current time, nothing else changes, and the response is 200. -/
theorem postNote_appends (env : Env) (r : Request) (objectID : ObjectID) (note : Note)
    (pre post : List NotebookDoc) (d : NotebookDoc)
    (hid : ObjectIDFromHex (param r.vars "notebookID") = some objectID)
    (hbody : r.body.asNote = some note) (hok : env.fault 0 = none)
    (hpre : ∀ x ∈ pre, x._id ≠ objectID) (hd : d._id = objectID) :
    serve .postNote env r (pre ++ d :: post) =
        ⟨200, .note note,
          ⟨pre ++ { d with notes := some (d.notes.getD [] ++ [marshalNote note])
                           lastAccess := some env.now } :: post, [.updateOne]⟩⟩ ∧
      (decodeNotebook { d with notes := some (d.notes.getD [] ++ [marshalNote note])
                               lastAccess := some env.now }).Notes =
        (decodeNotebook d).Notes ++ [note] ∧
      (decodeNotebook { d with notes := some (d.notes.getD [] ++ [marshalNote note])
                               lastAccess := some env.now }).LastAccess = env.now := by
  have hm : (Filter.byID objectID).Matches d = true := (Matches_byID_iff _ _).2 hd
  have hu : applyUpdate (.byID objectID) ⟨[.lastAccess env.now], some note, none⟩ d =
      .ok { d with notes := some (d.notes.getD [] ++ [marshalNote note])
                   lastAccess := some env.now } := rfl
  refine ⟨?_, ?_, ?_⟩
  · simp [serve, Handler.run, postNote, hid, hbody, UpdateOne, hok,
      updateFirst_at _ _ _ _ _ hm hu pre (byID_no_match hpre), encode]
  · simp [decodeNotebook, decodeNote_marshalNote]
  · simp [decodeNotebook]

/-- Witness of C7: a note is appended to the stored notebook 10 at time 9. -/
theorem postNote_appends_witness :
    serve .postNote sampleEnv ⟨[("notebookID", hex10)], noteBody "Ch3" "end" Data.zero⟩
        ([chemistry] ++ physics :: []) =
      ⟨200, .note ⟨0, "Ch3", "end", Data.zero⟩,
        ⟨[chemistry] ++ { physics with
            notes := some (physics.notes.getD [] ++ [marshalNote ⟨0, "Ch3", "end", Data.zero⟩])
            lastAccess := some sampleEnv.now } :: [], [.updateOne]⟩⟩ :=
  (postNote_appends sampleEnv ⟨[("notebookID", hex10)], noteBody "Ch3" "end" Data.zero⟩ 10
    ⟨0, "Ch3", "end", Data.zero⟩ [chemistry] [] physics (by decide) rfl rfl (by decide) rfl).1

/-- C8 as stated fails: a note posted without an identifier is stored without
`_id` and reported under the zero identifier; `removeNoteByID` with the zero
identifier answers 200 and the note is still there. -/
theorem removeNoteByID_keeps_note_without_id :
    (serve .postNote sampleEnv ⟨[("notebookID", hex13)], noteBody "Ch1" "intro" Data.zero⟩
      [chemistry]).session.docs = [chemistryNoted] ∧
    ObjectIDFromHex hex0 = some 0 ∧
    serve .getAllNotesByNotebookID sampleEnv ⟨[("notebookID", hex13)], noBody⟩ [chemistryNoted] =
      ⟨200, .notes [⟨0, "Ch1", "intro", ⟨0, "", []⟩⟩], ⟨[chemistryNoted], [.findOne]⟩⟩ ∧
    serve .removeNoteByID sampleEnv ⟨[("notebookID", hex13), ("noteID", hex0)], noBody⟩
      [chemistryNoted] = ⟨200, .empty, ⟨[chemistryNoted], [.updateOne]⟩⟩ := by
  decide

/-- C8, amended. `removeNoteByID` with well-formed identifiers, the store
answering: the response is 200; the stored note sequence of the addressed
notebook becomes the previous one without the elements whose stored `_id` is
the given identifier, the others in their order (and `lastAccess` the current
time); when no note has the identifier, stored or as reported, the sequence
is the one before; and when the identifier is not the zero identifier, the
sequence as reported is the previous one without the notes of that
identifier, the others in their order. -/
theorem removeNoteByID_pulls (env : Env) (r : Request) (docs : List NotebookDoc)
    (notebookObjectID noteObjectID : ObjectID)
    (hnb : ObjectIDFromHex (param r.vars "notebookID") = some notebookObjectID)
    (hnote : ObjectIDFromHex (param r.vars "noteID") = some noteObjectID)
    (hok : env.fault 0 = none) :
    (serve .removeNoteByID env r docs).status = 200 ∧
    (∀ pre d post, docs = pre ++ d :: post → (∀ x ∈ pre, x._id ≠ notebookObjectID) →
      d._id = notebookObjectID →
      (serve .removeNoteByID env r docs).session.docs =
          pre ++ { d with
            notes := d.notes.map (List.filter (fun n => decide (n._id ≠ some noteObjectID)))
            lastAccess := some env.now } :: post ∧
        ((∀ n ∈ d.notes.getD [], n._id ≠ some noteObjectID) →
          d.notes.map (List.filter (fun n => decide (n._id ≠ some noteObjectID))) = d.notes) ∧
        ((∀ n ∈ (decodeNotebook d).Notes, n.ID ≠ noteObjectID) →
          d.notes.map (List.filter (fun n => decide (n._id ≠ some noteObjectID))) = d.notes) ∧
        (noteObjectID ≠ 0 →
          (decodeNotebook { d with
              notes := d.notes.map (List.filter (fun n => decide (n._id ≠ some noteObjectID)))
              lastAccess := some env.now }).Notes =
            (decodeNotebook d).Notes.filter (fun n => decide (n.ID ≠ noteObjectID)))) := by
  constructor
  · obtain ⟨res, hres⟩ := updateFirst_ok (.byID notebookObjectID)
      ⟨[.lastAccess env.now], none, some noteObjectID⟩ (fun d => ⟨_, rfl⟩) docs
    simp [serve, Handler.run, removeNoteByID, hnb, hnote, UpdateOne, hok, hres, writeHeader]
  · intro pre d post hdocs hpre hd
    have hm : (Filter.byID notebookObjectID).Matches d = true := (Matches_byID_iff _ _).2 hd
    have hu : applyUpdate (.byID notebookObjectID)
        ⟨[.lastAccess env.now], none, some noteObjectID⟩ d =
        .ok { d with
          notes := d.notes.map (List.filter (fun n => decide (n._id ≠ some noteObjectID)))
          lastAccess := some env.now } := by
      simp [applyUpdate, applySets, applySet, applyPush, applyPull, hasID_eq]
    have hsame : (∀ n ∈ d.notes.getD [], n._id ≠ some noteObjectID) →
        d.notes.map (List.filter (fun n => decide (n._id ≠ some noteObjectID))) = d.notes := by
      intro hno
      cases hn : d.notes with
      | none => rfl
      | some ns =>
        rw [hn] at hno
        simp only [Option.map_some', Option.some.injEq, List.filter_eq_self]
        intro n hmem
        simpa using hno n (by simpa using hmem)
    refine ⟨?_, hsame, ?_, ?_⟩
    · simp [serve, Handler.run, removeNoteByID, hnb, hnote, UpdateOne, hok, hdocs,
        updateFirst_at _ _ _ _ _ hm hu pre (byID_no_match hpre), writeHeader]
    · intro hno
      apply hsame
      intro n hmem hid
      have hdec : decodeNote n ∈ (decodeNotebook d).Notes := by
        simp only [decodeNotebook]
        exact List.mem_map_of_mem _ hmem
      exact hno _ hdec (by simp [decodeNote, hid])
    · intro hnt0
      cases hn : d.notes with
      | none => simp [decodeNotebook, hn]
      | some ns =>
        simp only [decodeNotebook, hn, Option.map_some', Option.getD_some, List.filter_map]
        congr 1
        apply List.filter_congr
        intro n _
        cases hid : n._id with
        | none => simp [decodeNote, hid, Ne.symm hnt0]
        | some v => simp [decodeNote, hid]

/-- Witness of C8, amended: note 11 is removed from the stored notebook 10,
which is then reported with the single note 12. -/
theorem removeNoteByID_pulls_witness :
    (serve .removeNoteByID sampleEnv ⟨[("notebookID", hex10), ("noteID", hex11)], noBody⟩
        [chemistry, physics]).status = 200 ∧
      (serve .removeNoteByID sampleEnv ⟨[("notebookID", hex10), ("noteID", hex11)], noBody⟩
        [chemistry, physics]).session.docs =
        [chemistry,
          ⟨10, some "Physics", some [noteCh2], some 5, some 9, some ⟨0, "", [], []⟩⟩] ∧
      (decodeNotebook
          ⟨10, some "Physics", some [noteCh2], some 5, some 9, some ⟨0, "", [], []⟩⟩).Notes =
        [⟨12, "Ch2", "more", ⟨0, "second", []⟩⟩] :=
  ⟨(removeNoteByID_pulls sampleEnv ⟨[("notebookID", hex10), ("noteID", hex11)], noBody⟩
      [chemistry, physics] 10 11 (by decide) (by decide) rfl).1,
    ((removeNoteByID_pulls sampleEnv ⟨[("notebookID", hex10), ("noteID", hex11)], noBody⟩
      [chemistry, physics] 10 11 (by decide) (by decide) rfl).2
      [chemistry] physics [] rfl (by decide) rfl).1,
    (((removeNoteByID_pulls sampleEnv ⟨[("notebookID", hex10), ("noteID", hex11)], noBody⟩
      [chemistry, physics] 10 11 (by decide) (by decide) rfl).2
      [chemistry] physics [] rfl (by decide) rfl).2.2.2 (by decide)).trans (by decide)⟩

/-- C9 at a failing input: asked for the Data of note 12, the second note of
notebook 10, `getAllDataByNoteID` answers with the Data of the first note,
where `getDataByNoteAndID` answers with the Data of note 12. -/
theorem getAllDataByNoteID_returns_first_note :
    (physics.notes.getD []).map (fun n => (n._id, (n.data.map decodeData).getD Data.zero)) =
      [(some 11, ⟨0, "first", []⟩), (some 12, ⟨0, "second", []⟩)] ∧
    serve .getAllDataByNoteID sampleEnv ⟨[("notebookID", hex10), ("noteID", hex12)], noBody⟩
        [physics] = ⟨200, .data ⟨0, "first", []⟩, ⟨[physics], [.findOne]⟩⟩ ∧
    serve .getDataByNoteAndID sampleEnv ⟨[("notebookID", hex10), ("noteID", hex12)], noBody⟩
        [physics] = ⟨200, .data ⟨0, "second", []⟩, ⟨[physics], [.findOne]⟩⟩ := by
  decide

/-- C10 at the failing input: the request `DELETE /notebooks/removeAll` matches
the route `DELETE /notebooks/{id}`, registered before `/notebooks/removeAll`,
and is served by `removeNotebookByID` with `id = "removeAll"`: the response is
400 and every notebook is still stored. -/
theorem removeAll_route_is_shadowed :
    dispatch "DELETE" "/notebooks/removeAll" = some (.removeNotebookByID, [("id", "removeAll")]) ∧
    handle sampleEnv "DELETE" "/notebooks/removeAll" noBody [chemistry, physics] =
      some ⟨400, .error "Invalid ID format", ⟨[chemistry, physics], []⟩⟩ := by
  decide

/-! ## The access time across a request -/

/-- C11 at the failing input: the route `/notebooks/{notebookID}/lastaccess`
binds the variable `notebookID`, while `updateLastAccess` reads the variable
`id`; for the well-formed identifier of the stored notebook 10 the handler
parses the empty string, answers 400 and leaves `lastAccess` at 5.  Given the
same identifier under the key `id`, the handler sets `lastAccess` to the
current time 9 and answers 200 with it. -/
theorem lastaccess_route_is_rejected :
    dispatch "POST" "/notebooks/00000000000000000000000a/lastaccess" =
      some (.updateLastAccess, [("notebookID", hex10)]) ∧
    handle sampleEnv "POST" "/notebooks/00000000000000000000000a/lastaccess" noBody [physics] =
      some ⟨400, .error "Invalid ID format", ⟨[physics], []⟩⟩ ∧
    serve .updateLastAccess sampleEnv ⟨[("id", hex10)], noBody⟩ [physics] =
      ⟨200, .lastAccess 9, ⟨[{ physics with lastAccess := some 9 }], [.updateOne, .findOne]⟩⟩ := by
  decide

/-- C13 at two failing inputs: `getNoteByID` asked for note 13, which
notebook 10 does not have, answers 500 to `ErrNoDocuments`; and
`removeNotebookByID` answers 404 when the store call fails. -/
theorem taxonomy_is_not_followed :
    (∀ x ∈ [physics], ¬(x._id = 10 ∧ ∃ n ∈ x.notes.getD [], n._id = some 13)) ∧
    serve .getNoteByID sampleEnv ⟨[("notebookID", hex10), ("noteID", hex13)], noBody⟩ [physics] =
      ⟨500, .error "mongo: no documents in result", ⟨[physics], [.findOne]⟩⟩ ∧
    faultyEnv.fault 0 = some "server selection timeout" ∧
    serve .removeNotebookByID faultyEnv ⟨[("id", hex10)], noBody⟩ [physics] =
      ⟨404, .error "server selection timeout", ⟨[physics], [.deleteOne]⟩⟩ := by
  decide

/-- C14 at the failing input: `postNotebook` served `{"title": "Physics"}` at
time 9 stores a notebook under the generated identifier 77 and echoes the
struct it built, whose identifier is the zero identifier; title, notes, Data
and the two times of the echo are those of the stored document. -/
theorem postNotebook_echo_has_zero_id :
    serve .postNotebook sampleEnv ⟨[], notebookBody "Physics" []⟩ [] =
      ⟨200, .notebook ⟨0, "Physics", [], 9, 9, Data.zero⟩,
        ⟨[⟨77, some "Physics", none, some 9, some 9, some ⟨0, "", [], []⟩⟩], [.insertOne]⟩⟩ ∧
    decodeNotebook ⟨77, some "Physics", none, some 9, some 9, some ⟨0, "", [], []⟩⟩ =
      ⟨77, "Physics", [], 9, 9, Data.zero⟩ := by
  decide

end Falcon
